import Mathlib

/-!
# Shallow embedding of the pydwf-examples repository

This file embeds, in Lean 4, the pure computational content of the
`pydwf-examples` scripts (a collection of demo scripts driving Digilent
test-and-measurement instruments through the `pydwf` SDK binding), and
proves theorems about that embedding.

Conventions used throughout:

* Python integers are embedded as `Int` (`ℤ`); the GSHHS file fields are
  big-endian 32-bit signed integers, so they land in `Int` as well.
  Python's `x & (2^k - 1)` on arbitrary ints equals `x.emod (2^k)`
  (`Int.emod` is non-negative for a positive modulus, like Python `%`),
  and Python's arithmetic right shift `x >> k` equals `x.ediv (2^k)`
  (for a positive divisor `Int.ediv` is floor division, like Python `//`).
* Python floats are embedded as real numbers (`ℝ`) where transcendental
  functions appear, and as rationals (`ℚ`) where the code is purely
  field arithmetic, so that concrete evaluation stays decidable.
* NumPy arrays are embedded as lists; elementwise array operations are
  embedded pointwise.
* Code that can raise is embedded in `Except String`.
* SDK calls whose behaviour lives in the closed vendor library are
  embedded as explicit state transitions or trace events; the scripts'
  own control flow around them is embedded faithfully.
-/

namespace PcbTester

/-! ## gshhs.py — GSHHS binary dataset reader -/

/-- The eleven-field GSHHS polygon record header (`gshhs_poly_header` dtype,
gshhs.py lines 16-28). Every field is a big-endian signed 32-bit integer. -/
structure GSHHS_PolyHeader where
  id_ : Int
  n : Int
  flag : Int
  west : Int
  east : Int
  south : Int
  north : Int
  area : Int
  area_full : Int
  container : Int
  ancestor : Int
  deriving DecidableEq, Repr

/-- A GSHHS dataset point in micro-degrees (`gshhs_point` dtype,
gshhs.py lines 31-34). -/
structure GSHHS_Point where
  longitude : Int
  latitude : Int
  deriving DecidableEq, Repr

/-- The `GSHHS_Polygon` class (gshhs.py lines 37-80).  The constructor
copies every header field except `n` into the instance and stores the
point array. -/
structure GSHHS_Polygon where
  id_ : Int
  flag : Int
  west : Int
  east : Int
  south : Int
  north : Int
  area : Int
  area_full : Int
  container : Int
  ancestor : Int
  points : List GSHHS_Point
  deriving DecidableEq, Repr

/-- `GSHHS_Polygon.__init__` (gshhs.py lines 42-55): raises `RuntimeError`
when the header's `n` field differs from the length of the supplied point
array, and otherwise stores the remaining header fields and the points. -/
def mkGSHHS_Polygon (poly_header : GSHHS_PolyHeader) (poly_points : List GSHHS_Point) :
    Except String GSHHS_Polygon :=
  if poly_header.n ≠ (poly_points.length : Int) then
    .error "value n is unexpected"
  else
    .ok { id_ := poly_header.id_
          flag := poly_header.flag
          west := poly_header.west
          east := poly_header.east
          south := poly_header.south
          north := poly_header.north
          area := poly_header.area
          area_full := poly_header.area_full
          container := poly_header.container
          ancestor := poly_header.ancestor
          points := poly_points }

/-- `GSHHS_Polygon.level` (gshhs.py line 60): `self.flag & 255`, i.e.
`flag mod 2^8` (on a Python int, `x & (2^k - 1)` equals `x mod 2^k`, and
Lean's `Int` `%` is non-negative for a positive modulus like Python's). -/
def GSHHS_Polygon.level (p : GSHHS_Polygon) : Int :=
  p.flag % 256

/-- `GSHHS_Polygon.version` (gshhs.py line 65): `(self.flag >> 8) & 255`,
i.e. `(flag div 2^8) mod 2^8` (Python's `>>` is floor division by a power
of two, which Lean's `Int` `/` matches for a positive divisor). -/
def GSHHS_Polygon.version (p : GSHHS_Polygon) : Int :=
  (p.flag / 256) % 256

/-- `GSHHS_Polygon.greenwich` (gshhs.py line 70): `(self.flag >> 16) & 1`. -/
def GSHHS_Polygon.greenwich (p : GSHHS_Polygon) : Int :=
  (p.flag / 65536) % 2

/-- `GSHHS_Polygon.source` (gshhs.py line 75): `(self.flag >> 24) & 1`. -/
def GSHHS_Polygon.source (p : GSHHS_Polygon) : Int :=
  (p.flag / 16777216) % 2

/-- `GSHHS_Polygon.river` (gshhs.py line 80): `(self.flag >> 25) & 1`. -/
def GSHHS_Polygon.river (p : GSHHS_Polygon) : Int :=
  (p.flag / 33554432) % 2

/-- Pair up a flat list of 32-bit words into GSHHS points
(`np.frombuffer(..., dtype=gshhs_point, ...)`, gshhs.py line 100). -/
def parseGSHHSPoints : List Int → List GSHHS_Point
  | lon :: lat :: rest => ⟨lon, lat⟩ :: parseGSHHSPoints rest
  | _ => []

/-- The read loop of `read_gshhs_polygons` (gshhs.py lines 90-108), over a
buffer of big-endian 32-bit words.  Each iteration reads an 11-word header
(`np.frombuffer` raises `ValueError` when fewer words remain, and when the
requested point count is negative), reads `2 * n` point words, constructs a
`GSHHS_Polygon` (which re-checks the count), and keeps it when the filter
function is absent or accepts it. -/
def read_gshhs_loop (polygon_filter_func : Option (GSHHS_Polygon → Bool)) :
    List Int → Except String (List GSHHS_Polygon)
  | [] => .ok []
  | id_ :: n :: flag :: west :: east :: south :: north :: area :: area_full ::
      container :: ancestor :: rest =>
    if h : 0 ≤ n ∧ 2 * n.toNat ≤ rest.length then
      do
        let polygon ← mkGSHHS_Polygon
          ⟨id_, n, flag, west, east, south, north, area, area_full, container, ancestor⟩
          (parseGSHHSPoints (rest.take (2 * n.toNat)))
        let polygons ← read_gshhs_loop polygon_filter_func (rest.drop (2 * n.toNat))
        if polygon_filter_func.isNone ∨ (polygon_filter_func.getD (fun _ => true)) polygon then
          return polygon :: polygons
        else
          return polygons
    else
      .error "buffer is smaller than requested size"
  | _ => .error "buffer is smaller than requested size"
termination_by l => l.length
decreasing_by
  simp only [List.length_drop, List.length_cons]
  omega

/-! ## AnalogInRecordMode.py — Record-mode sample post-processing -/

/-- A per-channel sample value: `some v` is a measured voltage, `none` is
the NaN placeholder written for a lost sample. -/
abbrev SampleValue := Option ℚ

/-- One row of the `(n, 2)` sample array: a simultaneous pair of CH1/CH2
sample values. -/
abbrev SampleRow := SampleValue × SampleValue

/-- The NaN placeholder row produced by
`np.full((current_samples_lost, 2), np.nan)` (AnalogInRecordMode.py
line 172). -/
def nanRow : SampleRow := (none, none)

/-- The result of one `analogIn.status(True)` / `analogIn.statusRecord()`
round trip in the Record-mode inner loop: counts of lost and corrupted
samples, and the data rows transferred for the available samples (the two
per-channel `statusData` arrays stacked into an `(available, 2)` array,
AnalogInRecordMode.py lines 175-181). -/
structure RecordStatusResult where
  lost : Nat
  corrupted : Nat
  dataRows : List (ℚ × ℚ)

/-- The sample chunks appended for one status call (AnalogInRecordMode.py
lines 168-181): an all-NaN `(lost, 2)` block when samples were lost,
followed by the `(available, 2)` data block when samples were available. -/
def statusCallChunks (r : RecordStatusResult) : List SampleRow :=
  (if r.lost ≠ 0 then List.replicate r.lost nanRow else []) ++
  (if r.dataRows.length ≠ 0 then r.dataRows.map (fun v => (some v.1, some v.2)) else [])

/-- `samples = np.concatenate(samples)` (AnalogInRecordMode.py line 201):
the concatenation, in order, of the chunks appended over all status calls
of one acquisition. -/
def concatRecordSamples (results : List RecordStatusResult) : List SampleRow :=
  (results.map statusCallChunks).flatten

/-- Python 3 `round` to the nearest integer, rounding halves to even. -/
def pythonRound (q : ℚ) : Int :=
  if Int.fract q < 1 / 2 then ⌊q⌋
  else if 1 / 2 < Int.fract q then ⌊q⌋ + 1
  else if ⌊q⌋ % 2 = 0 then ⌊q⌋ else ⌊q⌋ + 1

/-- `num_samples = round(sample_frequency * record_length)`
(AnalogInRecordMode.py line 138). -/
def num_samples (sample_frequency record_length : ℚ) : Int :=
  pythonRound (sample_frequency * record_length)

/-- The discarding step (AnalogInRecordMode.py lines 203-209): when more
rows were concatenated than requested, drop the oldest
`len(samples) - num_samples` rows (`samples = samples[discard_count:]`). -/
def discardOldestSamples (numSamples : Nat) (samples : List SampleRow) : List SampleRow :=
  if samples.length > numSamples then
    samples.drop (samples.length - numSamples)
  else
    samples

/-! ## The example scripts' entry-point exception handling -/

/-- The exception classes caught by `except` clauses at the top of the
example scripts' entry points. -/
inductive CaughtException where
  | pydwfError
  | keyboardInterrupt
  deriving DecidableEq, Repr

/-- One example script, with the list of exception classes caught in its
`main` (in the textual order of the `except` clauses). -/
structure ExampleScript where
  name : String
  handlers : List CaughtException
  deriving DecidableEq, Repr

/-- The eighteen example scripts of the repository (the two library modules
`gshhs.py` and `analog_output_node_utilities.py` have no entry point), with
the `except` clauses guarding each script's `main`, read off from the
source. -/
def exampleScripts : List ExampleScript :=
  [ ⟨"AnalogIO.py", [.pydwfError, .keyboardInterrupt]⟩,
    ⟨"AnalogInRecordMode.py", [.pydwfError]⟩,
    ⟨"AnalogInShiftScanShiftScreenDemo.py", [.pydwfError]⟩,
    ⟨"AnalogInSimple.py", [.pydwfError, .keyboardInterrupt]⟩,
    ⟨"AnalogOutContinuousPlay.py", [.pydwfError, .keyboardInterrupt]⟩,
    ⟨"AnalogOutPlayCustomWaveform.py", [.pydwfError, .keyboardInterrupt]⟩,
    ⟨"AnalogOutPlayFunction.py", [.pydwfError, .keyboardInterrupt]⟩,
    ⟨"AnalogOutShowChannelAndNodeInfo.py", [.pydwfError, .keyboardInterrupt]⟩,
    ⟨"AnalogOutShowFunctionSymmetry.py", [.pydwfError, .keyboardInterrupt]⟩,
    ⟨"AnalogOutSimple.py", [.pydwfError, .keyboardInterrupt]⟩,
    ⟨"AnalogOutSpinningGlobe.py", [.pydwfError, .keyboardInterrupt]⟩,
    ⟨"DigitalDiscoveryLedBrightnessParameter.py", [.pydwfError, .keyboardInterrupt]⟩,
    ⟨"DigitalIO.py", [.pydwfError, .keyboardInterrupt]⟩,
    ⟨"DigitalOutShowStatusDuringPulsePlayback.py", [.pydwfError, .keyboardInterrupt]⟩,
    ⟨"ProtocolCAN.py", [.pydwfError, .keyboardInterrupt]⟩,
    ⟨"ProtocolI2C.py", [.pydwfError, .keyboardInterrupt]⟩,
    ⟨"ProtocolSPI.py", [.pydwfError, .keyboardInterrupt]⟩,
    ⟨"ProtocolUART.py", [.pydwfError, .keyboardInterrupt]⟩ ]

/-- A program state together with the lines printed to the console so far. -/
structure ConsoleState (σ : Type) where
  world : σ
  console : List String
  deriving DecidableEq, Repr

/-- `print(...)`: append one line to the console. -/
def printLine {σ : Type} (st : ConsoleState σ) (msg : String) : ConsoleState σ :=
  { st with console := st.console ++ [msg] }

/-- The shared shape of every script's entry point
(e.g. AnalogInRecordMode.py lines 307-341, DigitalIO.py lines 86-93):
run the `try` body once; when it raises `PyDwfError` the handler prints
`"PyDwfError: <message>"` and does nothing else.  A raising body returns
the message together with the state at the point the exception
propagated. -/
def scriptMain {σ : Type}
    (body : ConsoleState σ → Except (String × ConsoleState σ) (ConsoleState σ))
    (st : ConsoleState σ) : ConsoleState σ :=
  match body st with
  | .ok st2 => st2
  | .error (msg, st2) => printLine st2 ("PyDwfError: " ++ msg)

/-! ## analog_output_node_utilities.py — node settings and signal simulator -/

/-- The waveform selectors of the SDK's `DwfAnalogOutFunction` enumeration
(the final three stand for the selectors the simulator does not handle). -/
inductive DwfAnalogOutFunction where
  | DC
  | Sine
  | Square
  | Triangle
  | RampUp
  | RampDown
  | Pulse
  | Trapezium
  | SinePower
  | Noise
  | Custom
  | Play
  deriving DecidableEq, Repr

/-- The SDK's `DwfAnalogOutNode` enumeration. -/
inductive DwfAnalogOutNode where
  | Carrier
  | FM
  | AM
  deriving DecidableEq, Repr

/-- The `AnalogOutNodeSettings` named tuple
(analog_output_node_utilities.py lines 11-19): exactly the seven fields
`enable`, `function`, `frequency`, `amplitude`, `offset`, `symmetry`,
`phase`. -/
structure AnalogOutNodeSettings where
  enable : Bool
  function : DwfAnalogOutFunction
  frequency : ℝ
  amplitude : ℝ
  offset : ℝ
  symmetry : ℝ
  phase : ℝ

/-- The per-node state of the AnalogOut instrument, as observable through
the SDK's getter/setter pairs: a settings record for every
(channel, node) pair. -/
structure AnalogOutInstrument where
  nodeState : Int → DwfAnalogOutNode → AnalogOutNodeSettings

/-- Update the settings record of one (channel, node) pair, leaving every
other pair untouched. -/
def updateNode (d : AnalogOutInstrument) (ch : Int) (node : DwfAnalogOutNode)
    (f : AnalogOutNodeSettings → AnalogOutNodeSettings) : AnalogOutInstrument :=
  ⟨fun c n => if c = ch ∧ n = node then f (d.nodeState c n) else d.nodeState c n⟩

/-- `analogOut.nodeEnableSet`. -/
def nodeEnableSet (d : AnalogOutInstrument) (ch : Int) (node : DwfAnalogOutNode)
    (v : Bool) : AnalogOutInstrument :=
  updateNode d ch node (fun s => { s with enable := v })

/-- `analogOut.nodeFunctionSet`. -/
def nodeFunctionSet (d : AnalogOutInstrument) (ch : Int) (node : DwfAnalogOutNode)
    (v : DwfAnalogOutFunction) : AnalogOutInstrument :=
  updateNode d ch node (fun s => { s with function := v })

/-- `analogOut.nodeFrequencySet`. -/
def nodeFrequencySet (d : AnalogOutInstrument) (ch : Int) (node : DwfAnalogOutNode)
    (v : ℝ) : AnalogOutInstrument :=
  updateNode d ch node (fun s => { s with frequency := v })

/-- `analogOut.nodeAmplitudeSet`. -/
def nodeAmplitudeSet (d : AnalogOutInstrument) (ch : Int) (node : DwfAnalogOutNode)
    (v : ℝ) : AnalogOutInstrument :=
  updateNode d ch node (fun s => { s with amplitude := v })

/-- `analogOut.nodeOffsetSet`. -/
def nodeOffsetSet (d : AnalogOutInstrument) (ch : Int) (node : DwfAnalogOutNode)
    (v : ℝ) : AnalogOutInstrument :=
  updateNode d ch node (fun s => { s with offset := v })

/-- `analogOut.nodeSymmetrySet`. -/
def nodeSymmetrySet (d : AnalogOutInstrument) (ch : Int) (node : DwfAnalogOutNode)
    (v : ℝ) : AnalogOutInstrument :=
  updateNode d ch node (fun s => { s with symmetry := v })

/-- `analogOut.nodePhaseSet`. -/
def nodePhaseSet (d : AnalogOutInstrument) (ch : Int) (node : DwfAnalogOutNode)
    (v : ℝ) : AnalogOutInstrument :=
  updateNode d ch node (fun s => { s with phase := v })

/-- `get_analog_output_node_settings`
(analog_output_node_utilities.py lines 22-32): read the seven getters of
one node into an `AnalogOutNodeSettings` tuple. -/
def get_analog_output_node_settings (analogOut : AnalogOutInstrument)
    (channel_index : Int) (node : DwfAnalogOutNode) : AnalogOutNodeSettings :=
  { enable := (analogOut.nodeState channel_index node).enable
    function := (analogOut.nodeState channel_index node).function
    frequency := (analogOut.nodeState channel_index node).frequency
    amplitude := (analogOut.nodeState channel_index node).amplitude
    offset := (analogOut.nodeState channel_index node).offset
    symmetry := (analogOut.nodeState channel_index node).symmetry
    phase := (analogOut.nodeState channel_index node).phase }

/-- Record of one SDK setter invocation made by
`set_analog_output_node_settings`. -/
inductive SetterCall where
  | enableSet (ch : Int) (node : DwfAnalogOutNode) (v : Bool)
  | functionSet (ch : Int) (node : DwfAnalogOutNode) (v : DwfAnalogOutFunction)
  | frequencySet (ch : Int) (node : DwfAnalogOutNode) (v : ℝ)
  | amplitudeSet (ch : Int) (node : DwfAnalogOutNode) (v : ℝ)
  | offsetSet (ch : Int) (node : DwfAnalogOutNode) (v : ℝ)
  | symmetrySet (ch : Int) (node : DwfAnalogOutNode) (v : ℝ)
  | phaseSet (ch : Int) (node : DwfAnalogOutNode) (v : ℝ)

/-- One `if <arg> is not None: <setter>(...)` block of
`set_analog_output_node_settings`: on `none` the device and call log are
untouched; otherwise the setter runs and the call is logged. -/
def applyOptSetter {α : Type} (st : AnalogOutInstrument × List SetterCall)
    (arg : Option α) (setter : AnalogOutInstrument → α → AnalogOutInstrument)
    (call : α → SetterCall) : AnalogOutInstrument × List SetterCall :=
  match arg with
  | none => st
  | some v => (setter st.1 v, st.2 ++ [call v])

/-- `set_analog_output_node_settings`
(analog_output_node_utilities.py lines 35-64): invoke, in order, the
setter of each parameter passed as non-`None`, skipping the `None` ones.
The embedding also returns the list of SDK setter calls performed. -/
def set_analog_output_node_settings (analogOut : AnalogOutInstrument)
    (channel_index : Int) (node : DwfAnalogOutNode)
    (enable : Option Bool) (func : Option DwfAnalogOutFunction)
    (frequency : Option ℝ) (amplitude : Option ℝ) (offset : Option ℝ)
    (symmetry : Option ℝ) (phase : Option ℝ) :
    AnalogOutInstrument × List SetterCall :=
  let st := (analogOut, ([] : List SetterCall))
  let st := applyOptSetter st enable (nodeEnableSet · channel_index node ·)
    (SetterCall.enableSet channel_index node)
  let st := applyOptSetter st func (nodeFunctionSet · channel_index node ·)
    (SetterCall.functionSet channel_index node)
  let st := applyOptSetter st frequency (nodeFrequencySet · channel_index node ·)
    (SetterCall.frequencySet channel_index node)
  let st := applyOptSetter st amplitude (nodeAmplitudeSet · channel_index node ·)
    (SetterCall.amplitudeSet channel_index node)
  let st := applyOptSetter st offset (nodeOffsetSet · channel_index node ·)
    (SetterCall.offsetSet channel_index node)
  let st := applyOptSetter st symmetry (nodeSymmetrySet · channel_index node ·)
    (SetterCall.symmetrySet channel_index node)
  let st := applyOptSetter st phase (nodePhaseSet · channel_index node ·)
    (SetterCall.phaseSet channel_index node)
  st

/-- `np.copysign(a, b)`: the magnitude of `a` with the sign of `b`
(non-negative for `b = 0`, matching the sign bit of `+0.0`). -/
noncomputable def np_copysign (a b : ℝ) : ℝ :=
  if b < 0 then -|a| else |a|

/-- `_waveform_triangle` (analog_output_node_utilities.py lines 67-71),
pointwise over real numbers; `np.mod(x, 1.0)` is the fractional part and
`np.clip(v, lo, hi)` is `min (max v lo) hi`. -/
noncomputable def _waveform_triangle (symmetry : ℝ) (x : ℝ) : ℝ :=
  let x' := Int.fract x
  let q := min (max (0.5 * (symmetry / 100.0)) 0.000000001) 0.4999999999
  ((2 * q - 1) * (2 * x' - 1) + |q - x'| - |q + x' - 1|) / (2 * q * (2 * q - 1))

/-- `_waveform_square` (analog_output_node_utilities.py lines 74-81),
pointwise over real numbers; `np.sign` is the three-valued sign. -/
noncomputable def _waveform_square (symmetry : ℝ) (x : ℝ) : ℝ :=
  let q := min (max (symmetry / 100.0) 0.0) 1.0
  if q = 0 then -1
  else Real.sign (q - Int.fract x)

/-- `_calculate_signal` (analog_output_node_utilities.py lines 84-167),
pointwise over real numbers.  The unhandled waveform selectors reach the
final `raise RuntimeError()` branch. -/
noncomputable def _calculate_signal (settings : AnalogOutNodeSettings) (t : ℝ) :
    Except String ℝ :=
  let x := t * settings.frequency + settings.phase / 360.0
  match settings.function with
  | .DC => .ok 0
  | .Sine =>
      let angle := _waveform_triangle settings.symmetry x * (0.5 * Real.pi)
      .ok (Real.sin angle)
  | .Square =>
      let q := min (max (settings.symmetry / 100.0) 0.0) 1.0
      if q = 0 then .ok (-1)
      else .ok (Real.sign (q - Int.fract x))
  | .Triangle => .ok (_waveform_triangle settings.symmetry x)
  | .RampUp =>
      let q := min (max (settings.symmetry / 100.0) 0.0) 1.0
      if q = 0 then .ok 1
      else
        let x' := Int.fract x
        .ok ((x' - |x' - q|) / q)
  | .RampDown =>
      let q := min (max (settings.symmetry / 100.0) 0.0) 1.0
      if q = 1 then .ok 1
      else
        let x' := Int.fract x
        .ok (((x' - 1) + |x' - q|) / (q - 1))
  | .Pulse => .ok (0.5 * (1.0 + _waveform_square settings.symmetry x))
  | .Trapezium =>
      let x' := Int.fract x
      let q := min (max (0.25 * (settings.symmetry / 100.0)) 0.000000001) 0.25
      .ok ((-1 + 2 * x' - |q - x'| + |q - x' + 0.5| + |q + x' - 1.0| - |q + x' - 0.5|)
            / (2 * q))
  | .SinePower =>
      let plain_old_sine := Real.sin (x * 2 * Real.pi)
      let exponent_setting := min (max settings.symmetry (-99.999999999)) 100.000 / 100.0
      let exponent :=
        if 0 ≤ exponent_setting then 1.0 - exponent_setting
        else 1.0 / (1.0 + exponent_setting)
      .ok (np_copysign (|plain_old_sine| ^ exponent) plain_old_sine)
  | _ => .error "RuntimeError"

/-- `analog_output_signal_simulator`
(analog_output_node_utilities.py lines 170-189), pointwise over real
numbers: reject FM settings, compute the carrier signal (all-zero when the
carrier is disabled), apply enabled AM modulation, then apply the carrier
amplitude and offset (the offset is applied even when the carrier is
disabled). -/
noncomputable def analog_output_signal_simulator
    (carrier_settings : AnalogOutNodeSettings)
    (am_settings : Option AnalogOutNodeSettings)
    (fm_settings : Option AnalogOutNodeSettings) (t : ℝ) : Except String ℝ :=
  match fm_settings with
  | some _ => .error "FM modulation not yet supported."
  | none => do
    let carrier_signal ←
      if carrier_settings.enable then _calculate_signal carrier_settings t
      else pure 0
    let carrier_signal ←
      match am_settings with
      | some ams =>
        if ams.enable then do
          let am_signal ← _calculate_signal ams t
          pure ((100.0 + ams.offset + ams.amplitude * am_signal) / 100.0 * carrier_signal)
        else
          pure carrier_signal
      | none => pure carrier_signal
    return carrier_settings.offset + carrier_settings.amplitude * carrier_signal

/-! ## DigitalOutShowStatusDuringPulsePlayback.py — `summarize` -/

/-- The run-length accumulation loop of `summarize`
(DigitalOutShowStatusDuringPulsePlayback.py lines 28-40), carrying the
loop state (`current`, `current_count`, with `current_count ≠ 0`): each
finished run is rendered as `"<count> × <value>"`. -/
def runStrings {α : Type} [DecidableEq α] [ToString α] :
    List α → α → Nat → List String
  | [], current, current_count =>
      [toString current_count ++ " × " ++ toString current]
  | e :: rest, current, current_count =>
      if e = current then runStrings rest current (current_count + 1)
      else (toString current_count ++ " × " ++ toString current) :: runStrings rest e 1

/-- `summarize` (DigitalOutShowStatusDuringPulsePlayback.py lines 21-42):
run-length summarize a sequence as a string, joining the runs with
`separator` and returning `"(none)"` for an empty sequence. -/
def summarize {α : Type} [DecidableEq α] [ToString α] (sequence : List α)
    (separator : String := " followed by ") : String :=
  let strings : List String :=
    match sequence with
    | [] => []
    | e :: rest => runStrings rest e 1
  if strings ≠ [] then String.intercalate separator strings else "(none)"

/-! ## AnalogInRecordMode.py — SDK call trace of the script

The script's interaction with the vendor SDK is embedded as the sequence
of calls it performs.  The environment (device responses) is abstracted to
what drives the script's control flow: for each acquisition, the record
status observed at each `status(True)` poll, the final poll being the one
that returns `DwfState.Done`; the outer loop ends when the user closes the
plot window after an acquisition. -/

/-- One observable SDK interaction of an example script (`resetCall` is an
instrument `reset()` call, `queryCall` an informational getter call,
`readData` a sample/value read, `render` a console print or plot). -/
inductive SdkEvent where
  | parseArgs
  | openDevice
  | setupCall
  | resetCall
  | queryCall
  | configure
  | status
  | statusRecord
  | readData
  | render
  | closeDevice
  deriving DecidableEq, Repr

/-- The record status observed at one `status(True)` poll. -/
structure RecordStep where
  available : Nat
  lost : Nat
  deriving DecidableEq, Repr

/-- One acquisition of the inner loop: the polls that returned a non-Done
state, then the poll that returned `DwfState.Done` (the inner `while True`
loop only exits through the `Done` break, AnalogInRecordMode.py
lines 160-190). -/
structure RecordAcquisition where
  pre : List RecordStep
  lastStep : RecordStep
  deriving DecidableEq, Repr

/-- The SDK calls of one iteration of the inner status loop
(AnalogInRecordMode.py lines 162-181): poll `status`, call
`statusRecord`, and read both channels' data when samples are
available. -/
def stepEvents (st : RecordStep) : List SdkEvent :=
  [SdkEvent.status, SdkEvent.statusRecord] ++
  (if st.available ≠ 0 then [SdkEvent.readData, SdkEvent.readData] else [])

/-- The SDK calls of one acquisition (one iteration of the outer loop,
AnalogInRecordMode.py lines 146-259): `analogIn.configure(False, True)`,
the status polls until `Done`, then the matplotlib rendering of the
acquired record. -/
def acquisitionTrace (a : RecordAcquisition) : List SdkEvent :=
  SdkEvent.configure :: ((a.pre ++ [a.lastStep]).map stepEvents).flatten ++
    [SdkEvent.render]

/-- The SDK calls of `run_demo` (AnalogInRecordMode.py lines 97-259):
the nine channel/acquisition register-setup calls, seven more when
triggering is enabled (lines 117-135), then the acquisitions of the outer
loop (which runs at least once; the user closes the window after the last
one). -/
def run_demo_trace (trigger_flag : Bool) (first : RecordAcquisition)
    (rest : List RecordAcquisition) : List SdkEvent :=
  List.replicate (9 + if trigger_flag then 7 else 0) SdkEvent.setupCall ++
  ((first :: rest).map acquisitionTrace).flatten

/-- The SDK calls of `main` (AnalogInRecordMode.py lines 262-341): parse
arguments, open the device, perform the fifteen `configure_analog_output`
calls (lines 66-94), run the demo, and close the device on leaving the
`with openDwfDevice(...)` block. -/
def main_trace (trigger_flag : Bool) (first : RecordAcquisition)
    (rest : List RecordAcquisition) : List SdkEvent :=
  SdkEvent.parseArgs :: SdkEvent.openDevice ::
    (List.replicate 15 SdkEvent.setupCall ++
      (run_demo_trace trigger_flag first rest ++ [SdkEvent.closeDevice]))

/-- Scan a trace checking that every `status` event is preceded by some
`configure` event; `seen` records whether a `configure` has occurred. -/
def statusGuarded (seen : Bool) : List SdkEvent → Bool
  | [] => true
  | e :: rest =>
    match e with
    | SdkEvent.status => seen && statusGuarded seen rest
    | SdkEvent.configure => statusGuarded true rest
    | _ => statusGuarded seen rest

/-! ## AnalogInSimple.py and AnalogIO.py — SDK call traces

These two scripts poll a `status()` call without ever invoking a
`configure()` call; their traces are embedded to settle how the
configure-before-status ordering fares outside the acquisition scripts.
Their readout loops are unbounded (`while True`), so a run is modelled up
to `k` observed iterations, the device being closed by the
context-manager exit when the loop is eventually interrupted. -/

/-- One iteration of the readout loop of
`demo_analog_input_instrument_api_simple` (AnalogInSimple.py
lines 30-34): `analogIn.status(False)`, one `statusSample` read per
channel, and one printed line. -/
def analogInSimple_iteration (channel_count : Nat) : List SdkEvent :=
  SdkEvent.status ::
    (List.replicate channel_count SdkEvent.readData ++ [SdkEvent.render])

/-- The SDK calls of a run of AnalogInSimple.py observed for `k` loop
iterations (lines 12-64): parse arguments, open the device,
`channelCount()`, `reset()`, then the readout loop — the script contains
no `configure()` call at all. -/
def analogInSimple_trace (channel_count k : Nat) : List SdkEvent :=
  SdkEvent.parseArgs :: SdkEvent.openDevice :: SdkEvent.queryCall ::
    SdkEvent.resetCall ::
    ((List.replicate k (analogInSimple_iteration channel_count)).flatten ++
      [SdkEvent.closeDevice])

/-- The SDK calls of `demo_analog_io_api` (AnalogIO.py lines 12-57) for
one node of one channel: the six per-node getter calls and the printed
block. -/
def analogIO_node_trace : List SdkEvent :=
  List.replicate 6 SdkEvent.queryCall ++ [SdkEvent.render]

/-- The SDK calls of `demo_analog_io_api` for one channel: `channelName`,
`channelInfo`, the printed header, then the per-node calls. -/
def analogIO_channel_trace (node_count : Nat) : List SdkEvent :=
  SdkEvent.queryCall :: SdkEvent.queryCall :: SdkEvent.render ::
    (List.replicate node_count analogIO_node_trace).flatten

/-- The SDK calls of `demo_analog_io_api` (AnalogIO.py lines 12-57):
`reset()`, the three enable getters and their printout, the
`analogIO.status()` poll at line 29, `channelCount()` and its printout,
then the per-channel calls — no `configure()` call occurs. -/
def analogIO_api_trace (node_counts : List Nat) : List SdkEvent :=
  SdkEvent.resetCall :: SdkEvent.queryCall :: SdkEvent.queryCall ::
    SdkEvent.queryCall :: SdkEvent.render :: SdkEvent.status ::
    SdkEvent.queryCall :: SdkEvent.render ::
    (node_counts.map analogIO_channel_trace).flatten

/-- One iteration of `demo_analog_io_continuous_readout`'s loop
(AnalogIO.py lines 81-90): the `analogIO.status()` poll at line 82, one
`channelNodeStatus` read per node, and one printed line. -/
def analogIO_readout_iteration (node_count : Nat) : List SdkEvent :=
  SdkEvent.status ::
    (List.replicate node_count SdkEvent.readData ++ [SdkEvent.render])

/-- The SDK calls of `demo_analog_io_continuous_readout` (AnalogIO.py
lines 59-90) observed for `k` loop iterations: `channelCount()`, the
`channelName` scan over all channels, `channelInfo`, the node-name scan,
the banner print, then the readout loop. -/
def analogIO_readout_trace (channel_count node_count k : Nat) : List SdkEvent :=
  SdkEvent.queryCall ::
    (List.replicate channel_count SdkEvent.queryCall ++
      (SdkEvent.queryCall ::
        (List.replicate node_count SdkEvent.queryCall ++
          (SdkEvent.render ::
            (List.replicate k (analogIO_readout_iteration node_count)).flatten))))

/-- The SDK calls of a run of AnalogIO.py observed for `k` readout
iterations (lines 93-116): parse arguments, open the device, the API
demo over channels with the given node counts, the continuous USB-monitor
readout, then the device close — the script contains no `configure()`
call at all. -/
def analogIO_trace (node_counts : List Nat) (readout_node_count k : Nat) :
    List SdkEvent :=
  SdkEvent.parseArgs :: SdkEvent.openDevice ::
    (analogIO_api_trace node_counts ++
      (analogIO_readout_trace node_counts.length readout_node_count k ++
        [SdkEvent.closeDevice]))

/-! ## AnalogOutSpinningGlobe.py — threads, queue, cancellation flag -/

/-- The thread targets spawned by `spinning_globe_demo`. -/
inductive GlobeThreadTarget where
  | frame_producer
  | wait_for_input
  deriving DecidableEq, Repr

/-- The concurrency scaffolding `spinning_globe_demo` builds
(AnalogOutSpinningGlobe.py lines 193-214): the capacity of the frame
queue and the spawned threads, in start order. -/
structure GlobeDemoSetup where
  queueCapacity : Nat
  threads : List GlobeThreadTarget
  deriving DecidableEq, Repr

/-- `spinning_globe_demo` creates `queue.Queue(maxsize=5)` (line 194) and
starts one `frame_producer` thread (lines 207-210) and one
`wait_for_input` thread (lines 213-214). -/
def spinning_globe_demo_setup : GlobeDemoSetup :=
  { queueCapacity := 5
    threads := [GlobeThreadTarget.frame_producer, GlobeThreadTarget.wait_for_input] }

/-- The frames `frame_producer` (AnalogOutSpinningGlobe.py lines 118-170)
enqueues, given the value of `event.is_set()` observed at each loop
check: while the flag reads false it renders the frame for the current
counter, enqueues it, and increments the counter; at the first true
reading it falls out of the loop and terminates.  `renderFrame`
abstracts the pure NumPy rendering of one frame from the frame
counter. -/
def frame_producer_frames {α : Type} (renderFrame : Nat → α) :
    List Bool → Nat → List α
  | [], _ => []
  | is_set :: restFlags, frame =>
    if is_set then []
    else renderFrame frame :: frame_producer_frames renderFrame restFlags (frame + 1)

/-- The state shared between the spinning-globe threads: the cancellation
`threading.Event` and the frame queue contents. -/
structure GlobeSharedState (α : Type) where
  event : Bool
  frameQueue : List α
  deriving DecidableEq, Repr

/-- `wait_for_input` (AnalogOutSpinningGlobe.py lines 173-179): after user
input arrives, set the cancellation event; nothing else is touched. -/
def wait_for_input {α : Type} (st : GlobeSharedState α) : GlobeSharedState α :=
  { st with event := true }

/-! ## Theorems -/

/-- Claim C1: after the per-status-call chunks (including NaN placeholder
rows for lost samples) are concatenated into one array of `n` rows,
whenever `n` exceeds `num_samples = round(sample_frequency *
record_length)` the first `n - num_samples` rows are discarded, so exactly
`num_samples` rows remain and they are the last `num_samples` rows of the
concatenation in their original order; when `n ≤ num_samples` nothing is
discarded. -/
theorem record_mode_keeps_last_num_samples
    (sample_frequency record_length : ℚ) (results : List RecordStatusResult) :
    let numSamples := (num_samples sample_frequency record_length).toNat
    let samples := concatRecordSamples results
    let kept := discardOldestSamples numSamples samples
    samples = samples.take (samples.length - numSamples) ++ kept ∧
    kept.length = min samples.length numSamples ∧
    (samples.length > numSamples →
      kept = samples.drop (samples.length - numSamples) ∧
      kept.length = numSamples) ∧
    (samples.length ≤ numSamples → kept = samples) := by
  intro numSamples samples kept
  have hkept : kept = if samples.length > numSamples then
      samples.drop (samples.length - numSamples) else samples := rfl
  by_cases h : samples.length > numSamples
  · rw [hkept, if_pos h]
    refine ⟨(List.take_append_drop _ _).symm, ?_, fun _ => ⟨rfl, ?_⟩, fun hle => absurd h (not_lt.mpr hle)⟩
    · rw [List.length_drop]
      omega
    · rw [List.length_drop]
      omega
  · rw [hkept, if_neg h]
    push_neg at h
    refine ⟨?_, ?_, fun hgt => absurd hgt (not_lt.mpr h), fun _ => rfl⟩
    · have : samples.length - numSamples = 0 := by omega
      rw [this, List.take_zero, List.nil_append]
    · omega

/-- Witness for C1 at a concrete acquisition: three concatenated rows,
`num_samples = round(2 * 1) = 2`, so the oldest row is discarded and the
last two rows are kept. -/
theorem record_mode_keeps_last_num_samples_witness :
    let samples := concatRecordSamples
      [⟨1, 0, [((1 : ℚ), (2 : ℚ))]⟩, ⟨0, 0, [(3, 4), (5, 6)]⟩]
    samples.length > (num_samples 2 1).toNat ∧
    discardOldestSamples (num_samples 2 1).toNat samples =
      samples.drop (samples.length - (num_samples 2 1).toNat) ∧
    (discardOldestSamples (num_samples 2 1).toNat samples).length =
      (num_samples 2 1).toNat := by
  have h := record_mode_keeps_last_num_samples 2 1
    [⟨1, 0, [((1 : ℚ), (2 : ℚ))]⟩, ⟨0, 0, [(3, 4), (5, 6)]⟩]
  have hn : num_samples 2 1 = 2 := by
    norm_num [num_samples, pythonRound, Int.fract]
  have hgt : (concatRecordSamples
      [⟨1, 0, [((1 : ℚ), (2 : ℚ))]⟩, ⟨0, 0, [(3, 4), (5, 6)]⟩]).length >
      (num_samples 2 1).toNat := by
    rw [hn]; decide
  exact ⟨hgt, (h.2.2.1 hgt).1, (h.2.2.1 hgt).2⟩

/-- Floor division of `a + k * b` by `k` discards a remainder `a` in
`[0, k)`. -/
theorem int_div_shift (a k b : ℤ) (hk : k ≠ 0) (ha : 0 ≤ a) (hak : a < k) :
    (a + k * b) / k = b := by
  rw [Int.add_mul_ediv_left a b hk, Int.ediv_eq_zero_of_lt ha hak, zero_add]

/-- Reduction of `a + k * b` modulo `k` recovers a remainder `a` in
`[0, k)`. -/
theorem int_mod_shift (a k b : ℤ) (ha : 0 ≤ a) (hak : a < k) :
    (a + k * b) % k = a := by
  rw [Int.add_mul_emod_self_left, Int.emod_eq_of_lt ha hak]

/-- Claim C3: the flag-bit mapping properties of `GSHHS_Polygon` decode the
32-bit flag word as fixed bit fields — `level` is bits 0-7, `version` bits
8-15, `greenwich` bit 16, `source` bit 24 and `river` bit 25 (with `mid`
standing for the unused bits 17-23 and `high` for bits 26 and up) — and
each is a pure function of the stored flag value. -/
theorem gshhs_flag_bit_fields
    (level version g mid s r high : ℕ)
    (hl : level < 256) (hv : version < 256) (hg : g < 2) (hm : mid < 128)
    (hs : s < 2) (hr : r < 2) (p : GSHHS_Polygon)
    (hflag : p.flag = (level : Int) + 256 * version + 65536 * g + 131072 * mid
      + 16777216 * s + 33554432 * r + 67108864 * high) :
    (p.level = level ∧ p.version = version ∧ p.greenwich = g ∧
      p.source = s ∧ p.river = r) ∧
    (∀ q : GSHHS_Polygon, q.flag = p.flag →
      q.level = p.level ∧ q.version = p.version ∧ q.greenwich = p.greenwich ∧
      q.source = p.source ∧ q.river = p.river) := by
  have hl0 : (0 : ℤ) ≤ level := Int.ofNat_nonneg level
  have hl' : (level : ℤ) < 256 := by exact_mod_cast hl
  constructor
  · refine ⟨?_, ?_, ?_, ?_, ?_⟩
    · show p.flag % 256 = level
      have e : p.flag = (level : ℤ) + 256 * ((version : ℤ) + 256 * g + 512 * mid
          + 65536 * s + 131072 * r + 262144 * high) := by rw [hflag]; ring
      rw [e, int_mod_shift _ _ _ hl0 hl']
    · show (p.flag / 256) % 256 = version
      have e : p.flag = (level : ℤ) + 256 * ((version : ℤ) + 256 * g + 512 * mid
          + 65536 * s + 131072 * r + 262144 * high) := by rw [hflag]; ring
      rw [e, int_div_shift _ _ _ (by norm_num) hl0 hl']
      have e2 : (version : ℤ) + 256 * g + 512 * mid + 65536 * s + 131072 * r
          + 262144 * high = (version : ℤ) + 256 * ((g : ℤ) + 2 * mid + 256 * s
          + 512 * r + 1024 * high) := by ring
      rw [e2, int_mod_shift _ _ _ (Int.ofNat_nonneg version) (by exact_mod_cast hv)]
    · show (p.flag / 65536) % 2 = g
      have e : p.flag = ((level : ℤ) + 256 * version) + 65536 * ((g : ℤ)
          + 2 * mid + 256 * s + 512 * r + 1024 * high) := by rw [hflag]; ring
      rw [e, int_div_shift _ _ _ (by norm_num) (by positivity) (by omega)]
      have e2 : (g : ℤ) + 2 * mid + 256 * s + 512 * r + 1024 * high
          = (g : ℤ) + 2 * ((mid : ℤ) + 128 * s + 256 * r + 512 * high) := by ring
      rw [e2, int_mod_shift _ _ _ (Int.ofNat_nonneg g) (by exact_mod_cast hg)]
    · show (p.flag / 16777216) % 2 = s
      have e : p.flag = ((level : ℤ) + 256 * version + 65536 * g + 131072 * mid)
          + 16777216 * ((s : ℤ) + 2 * r + 4 * high) := by rw [hflag]; ring
      rw [e, int_div_shift _ _ _ (by norm_num) (by positivity) (by omega)]
      have e2 : (s : ℤ) + 2 * r + 4 * high = (s : ℤ) + 2 * ((r : ℤ) + 2 * high) := by
        ring
      rw [e2, int_mod_shift _ _ _ (Int.ofNat_nonneg s) (by exact_mod_cast hs)]
    · show (p.flag / 33554432) % 2 = r
      have e : p.flag = ((level : ℤ) + 256 * version + 65536 * g + 131072 * mid
          + 16777216 * s) + 33554432 * ((r : ℤ) + 2 * high) := by rw [hflag]; ring
      rw [e, int_div_shift _ _ _ (by norm_num) (by positivity) (by omega)]
      rw [show (r : ℤ) + 2 * high = (r : ℤ) + 2 * (high : ℤ) from rfl,
        int_mod_shift _ _ _ (Int.ofNat_nonneg r) (by exact_mod_cast hr)]
  · intro q hq
    unfold GSHHS_Polygon.level GSHHS_Polygon.version GSHHS_Polygon.greenwich
      GSHHS_Polygon.source GSHHS_Polygon.river
    rw [hq]
    exact ⟨rfl, rfl, rfl, rfl, rfl⟩

/-- Witness for C3 at the concrete flag word
`3 + 256*7 + 2^16 + 2^25 = 33621763`. -/
theorem gshhs_flag_bit_fields_witness :
    let p : GSHHS_Polygon := ⟨0, 33621763, 0, 0, 0, 0, 0, 0, 0, 0, []⟩
    p.level = 3 ∧ p.version = 7 ∧ p.greenwich = 1 ∧ p.source = 0 ∧ p.river = 1 := by
  intro p
  exact (gshhs_flag_bit_fields 3 7 1 0 0 1 0 (by decide) (by decide) (by decide)
    (by decide) (by decide) (by decide) p (by decide)).1

/-- The run-length loop of `summarize` on a constant tail yields a single
run whose count is the accumulator plus the tail length. -/
theorem runStrings_replicate {α : Type} [DecidableEq α] [ToString α] (c : α) :
    ∀ (k m : Nat), runStrings (List.replicate k c) c m =
      [toString (m + k) ++ " × " ++ toString c]
  | 0, m => by simp [runStrings]
  | k + 1, m => by
    have h1 : m + 1 + k = m + (k + 1) := by omega
    rw [List.replicate_succ]
    show (if c = c then _ else _) = _
    rw [if_pos rfl, runStrings_replicate c k (m + 1), h1]

/-- Claim C4, counterexample: `summarize` (an in-repo function) evaluated
at a concrete argument has a value fixed by that argument alone — a pure,
hardware-independent computation, contradicting the claim that every
function in the repository needs the physical instrument. -/
theorem summarize_concrete_value :
    summarize [5, 5, 7] " followed by " = "2 × 5 followed by 1 × 7" := by rfl

/-- Claim C4, amended: the repository does contain pure,
hardware-independent computations; in particular `summarize` is determined
by its explicit arguments alone, satisfying for every constant input
sequence of positive length `n` the input-output law
`summarize (replicate n c) sep = "<n> × <c>"`. -/
theorem summarize_replicate_pure {α : Type} [DecidableEq α] [ToString α] (c : α)
    (n : Nat) (h : 0 < n) (sep : String) :
    summarize (List.replicate n c) sep = toString n ++ " × " ++ toString c := by
  obtain ⟨k, rfl⟩ : ∃ k, n = k + 1 := ⟨n - 1, by omega⟩
  rw [List.replicate_succ]
  simp only [summarize]
  rw [runStrings_replicate c k 1]
  rw [if_pos (by simp)]
  rw [show String.intercalate sep [toString (1 + k) ++ " × " ++ toString c]
      = toString (1 + k) ++ " × " ++ toString c by
    simp [String.intercalate, String.intercalate.go]]
  rw [show 1 + k = k + 1 by omega]

/-- Witness for the amended C4 at `n = 3`, `c = 9`. -/
theorem summarize_replicate_pure_witness :
    summarize (List.replicate 3 (9 : ℕ)) " followed by " = "3 × 9" := by
  rw [summarize_replicate_pure (9 : ℕ) 3 (by decide) " followed by "]
  rfl

/-- Claim C2, counterexample: it is not true that every example script
catches `KeyboardInterrupt` at the top of its entry point —
AnalogInRecordMode.py's `main` has no `except KeyboardInterrupt` clause
(its only handler is `except PyDwfError`, AnalogInRecordMode.py
lines 340-341). -/
theorem keyboard_interrupt_not_caught_everywhere :
    (¬ ∀ s ∈ exampleScripts, CaughtException.keyboardInterrupt ∈ s.handlers) ∧
    ∃ s ∈ exampleScripts, s.name = "AnalogInRecordMode.py" ∧
      CaughtException.keyboardInterrupt ∉ s.handlers := by decide

/-- Claim C2, amended: every example script except AnalogInRecordMode.py
and AnalogInShiftScanShiftScreenDemo.py catches `KeyboardInterrupt`
separately at the top of its entry point; those two scripts catch only
`PyDwfError`. -/
theorem keyboard_interrupt_caught_elsewhere :
    (∀ s ∈ exampleScripts, s.name ≠ "AnalogInRecordMode.py" →
      s.name ≠ "AnalogInShiftScanShiftScreenDemo.py" →
      CaughtException.keyboardInterrupt ∈ s.handlers) ∧
    (∀ s ∈ exampleScripts, (s.name = "AnalogInRecordMode.py" ∨
      s.name = "AnalogInShiftScanShiftScreenDemo.py") →
      s.handlers = [CaughtException.pydwfError]) := by decide

/-- Witness for the amended C2 at the DigitalIO.py script. -/
theorem keyboard_interrupt_caught_elsewhere_witness :
    CaughtException.keyboardInterrupt ∈
      (ExampleScript.mk "DigitalIO.py"
        [CaughtException.pydwfError, CaughtException.keyboardInterrupt]).handlers :=
  keyboard_interrupt_caught_elsewhere.1 _ (by decide) (by decide) (by decide)

/-- Claim C6: every example script catches `PyDwfError` at the top of its
entry point (as the first handler); running the shared entry-point shape,
a body that completes normally is returned unchanged, and a body that
raises leaves the program in exactly the state at the point the exception
propagated, with only the `"PyDwfError: <message>"` line printed — no
retry, recovery or further partial-failure handling. -/
theorem pydwf_error_handler_semantics :
    (∀ s ∈ exampleScripts, CaughtException.pydwfError ∈ s.handlers ∧
      s.handlers.head? = some CaughtException.pydwfError) ∧
    (∀ (σ : Type)
      (body : ConsoleState σ → Except (String × ConsoleState σ) (ConsoleState σ))
      (st stOk : ConsoleState σ), body st = .ok stOk → scriptMain body st = stOk) ∧
    (∀ (σ : Type)
      (body : ConsoleState σ → Except (String × ConsoleState σ) (ConsoleState σ))
      (st : ConsoleState σ) (msg : String) (stErr : ConsoleState σ),
      body st = .error (msg, stErr) →
      scriptMain body st =
        { world := stErr.world
          console := stErr.console ++ ["PyDwfError: " ++ msg] }) := by
  refine ⟨by decide, ?_, ?_⟩
  · intro σ body st stOk h
    simp [scriptMain, h]
  · intro σ body st msg stErr h
    simp [scriptMain, h, printLine]

/-- Witness for C6: a body raising `PyDwfError` with message
`"device not found"` from the initial state leaves the world state intact
and prints exactly the handler line. -/
theorem pydwf_error_handler_semantics_witness :
    scriptMain (fun st => .error ("device not found", st)) (⟨0, []⟩ : ConsoleState ℕ)
      = ⟨0, ["PyDwfError: device not found"]⟩ := by
  have h := pydwf_error_handler_semantics.2.2 ℕ
    (fun st => .error ("device not found", st)) ⟨0, []⟩ "device not found" ⟨0, []⟩ rfl
  exact h

/-- Reading back the node addressed by `updateNode` yields the updated
settings. -/
theorem updateNode_self (d : AnalogOutInstrument) (ch : Int)
    (node : DwfAnalogOutNode) (f : AnalogOutNodeSettings → AnalogOutNodeSettings) :
    (updateNode d ch node f).nodeState ch node = f (d.nodeState ch node) := by
  simp [updateNode]

/-- Reading back any other node after `updateNode` yields its old
settings. -/
theorem updateNode_other (d : AnalogOutInstrument) (ch : Int)
    (node : DwfAnalogOutNode) (f : AnalogOutNodeSettings → AnalogOutNodeSettings)
    (c : Int) (n : DwfAnalogOutNode) (h : ¬(c = ch ∧ n = node)) :
    (updateNode d ch node f).nodeState c n = d.nodeState c n := by
  simp [updateNode, h]

/-- An optional-setter step built from a setter that does not touch the
node `(c, n)` leaves that node's state unchanged. -/
theorem applyOptSetter_fst_other {α : Type}
    (st : AnalogOutInstrument × List SetterCall) (arg : Option α)
    (setter : AnalogOutInstrument → α → AnalogOutInstrument)
    (call : α → SetterCall) (c : Int) (n : DwfAnalogOutNode)
    (h : ∀ (dd : AnalogOutInstrument) (v : α),
      (setter dd v).nodeState c n = dd.nodeState c n) :
    (applyOptSetter st arg setter call).1.nodeState c n = st.1.nodeState c n := by
  cases arg <;> simp [applyOptSetter, h]

/-- An optional-setter step appends exactly the calls of its non-`None`
argument to the call log. -/
theorem applyOptSetter_snd {α : Type}
    (st : AnalogOutInstrument × List SetterCall) (arg : Option α)
    (setter : AnalogOutInstrument → α → AnalogOutInstrument)
    (call : α → SetterCall) :
    (applyOptSetter st arg setter call).2 = st.2 ++ (arg.map call).toList := by
  cases arg <;> simp [applyOptSetter]

/-- The `enable` step of `set_analog_output_node_settings`, seen at the
addressed node. -/
theorem applyOpt_enable_target (st : AnalogOutInstrument × List SetterCall)
    (ch : Int) (node : DwfAnalogOutNode) (arg : Option Bool) :
    (applyOptSetter st arg (nodeEnableSet · ch node ·)
        (SetterCall.enableSet ch node)).1.nodeState ch node
      = { st.1.nodeState ch node with
          enable := arg.getD (st.1.nodeState ch node).enable } := by
  cases arg
  · rfl
  · simp [applyOptSetter, nodeEnableSet, updateNode_self]

/-- The `func` step of `set_analog_output_node_settings`, seen at the
addressed node. -/
theorem applyOpt_function_target (st : AnalogOutInstrument × List SetterCall)
    (ch : Int) (node : DwfAnalogOutNode) (arg : Option DwfAnalogOutFunction) :
    (applyOptSetter st arg (nodeFunctionSet · ch node ·)
        (SetterCall.functionSet ch node)).1.nodeState ch node
      = { st.1.nodeState ch node with
          function := arg.getD (st.1.nodeState ch node).function } := by
  cases arg
  · rfl
  · simp [applyOptSetter, nodeFunctionSet, updateNode_self]

/-- The `frequency` step of `set_analog_output_node_settings`, seen at the
addressed node. -/
theorem applyOpt_frequency_target (st : AnalogOutInstrument × List SetterCall)
    (ch : Int) (node : DwfAnalogOutNode) (arg : Option ℝ) :
    (applyOptSetter st arg (nodeFrequencySet · ch node ·)
        (SetterCall.frequencySet ch node)).1.nodeState ch node
      = { st.1.nodeState ch node with
          frequency := arg.getD (st.1.nodeState ch node).frequency } := by
  cases arg
  · rfl
  · simp [applyOptSetter, nodeFrequencySet, updateNode_self]

/-- The `amplitude` step of `set_analog_output_node_settings`, seen at the
addressed node. -/
theorem applyOpt_amplitude_target (st : AnalogOutInstrument × List SetterCall)
    (ch : Int) (node : DwfAnalogOutNode) (arg : Option ℝ) :
    (applyOptSetter st arg (nodeAmplitudeSet · ch node ·)
        (SetterCall.amplitudeSet ch node)).1.nodeState ch node
      = { st.1.nodeState ch node with
          amplitude := arg.getD (st.1.nodeState ch node).amplitude } := by
  cases arg
  · rfl
  · simp [applyOptSetter, nodeAmplitudeSet, updateNode_self]

/-- The `offset` step of `set_analog_output_node_settings`, seen at the
addressed node. -/
theorem applyOpt_offset_target (st : AnalogOutInstrument × List SetterCall)
    (ch : Int) (node : DwfAnalogOutNode) (arg : Option ℝ) :
    (applyOptSetter st arg (nodeOffsetSet · ch node ·)
        (SetterCall.offsetSet ch node)).1.nodeState ch node
      = { st.1.nodeState ch node with
          offset := arg.getD (st.1.nodeState ch node).offset } := by
  cases arg
  · rfl
  · simp [applyOptSetter, nodeOffsetSet, updateNode_self]

/-- The `symmetry` step of `set_analog_output_node_settings`, seen at the
addressed node. -/
theorem applyOpt_symmetry_target (st : AnalogOutInstrument × List SetterCall)
    (ch : Int) (node : DwfAnalogOutNode) (arg : Option ℝ) :
    (applyOptSetter st arg (nodeSymmetrySet · ch node ·)
        (SetterCall.symmetrySet ch node)).1.nodeState ch node
      = { st.1.nodeState ch node with
          symmetry := arg.getD (st.1.nodeState ch node).symmetry } := by
  cases arg
  · rfl
  · simp [applyOptSetter, nodeSymmetrySet, updateNode_self]

/-- The `phase` step of `set_analog_output_node_settings`, seen at the
addressed node. -/
theorem applyOpt_phase_target (st : AnalogOutInstrument × List SetterCall)
    (ch : Int) (node : DwfAnalogOutNode) (arg : Option ℝ) :
    (applyOptSetter st arg (nodePhaseSet · ch node ·)
        (SetterCall.phaseSet ch node)).1.nodeState ch node
      = { st.1.nodeState ch node with
          phase := arg.getD (st.1.nodeState ch node).phase } := by
  cases arg
  · rfl
  · simp [applyOptSetter, nodePhaseSet, updateNode_self]

/-- Claim C5: `AnalogOutNodeSettings` is a plain value tuple of exactly the
seven fields mirrored by the SDK getter/setter pairs, and
`set_analog_output_node_settings` invokes the SDK setter for exactly the
parameters passed as non-`None`, in declaration order: the addressed
node's settings end up overwritten exactly at the non-`None` fields (a
`None` argument leaves that setting unchanged), every other node's state
is untouched, and reading the node back with
`get_analog_output_node_settings` returns its stored seven-field tuple. -/
theorem set_node_settings_exact (d : AnalogOutInstrument) (ch : Int)
    (node : DwfAnalogOutNode) (enable : Option Bool)
    (func : Option DwfAnalogOutFunction)
    (frequency amplitude offset symmetry phase : Option ℝ) :
    let r := set_analog_output_node_settings d ch node enable func frequency
      amplitude offset symmetry phase
    r.1.nodeState ch node =
      { enable := enable.getD (d.nodeState ch node).enable
        function := func.getD (d.nodeState ch node).function
        frequency := frequency.getD (d.nodeState ch node).frequency
        amplitude := amplitude.getD (d.nodeState ch node).amplitude
        offset := offset.getD (d.nodeState ch node).offset
        symmetry := symmetry.getD (d.nodeState ch node).symmetry
        phase := phase.getD (d.nodeState ch node).phase } ∧
    (∀ c n, ¬(c = ch ∧ n = node) → r.1.nodeState c n = d.nodeState c n) ∧
    r.2 = (enable.map (SetterCall.enableSet ch node)).toList ++
      (func.map (SetterCall.functionSet ch node)).toList ++
      (frequency.map (SetterCall.frequencySet ch node)).toList ++
      (amplitude.map (SetterCall.amplitudeSet ch node)).toList ++
      (offset.map (SetterCall.offsetSet ch node)).toList ++
      (symmetry.map (SetterCall.symmetrySet ch node)).toList ++
      (phase.map (SetterCall.phaseSet ch node)).toList ∧
    (∀ d' : AnalogOutInstrument,
      get_analog_output_node_settings d' ch node = d'.nodeState ch node) := by
  refine ⟨?_, ?_, ?_, fun d' => rfl⟩
  · show (applyOptSetter _ phase _ _).1.nodeState ch node = _
    rw [applyOpt_phase_target, applyOpt_symmetry_target, applyOpt_offset_target,
      applyOpt_amplitude_target, applyOpt_frequency_target,
      applyOpt_function_target, applyOpt_enable_target]
  · intro c n h
    show (applyOptSetter _ phase _ _).1.nodeState c n = _
    rw [applyOptSetter_fst_other _ phase (fun x1 x2 => nodePhaseSet x1 ch node x2)
        (SetterCall.phaseSet ch node) c n
        (fun dd v => updateNode_other dd ch node _ c n h),
      applyOptSetter_fst_other _ symmetry (fun x1 x2 => nodeSymmetrySet x1 ch node x2)
        (SetterCall.symmetrySet ch node) c n
        (fun dd v => updateNode_other dd ch node _ c n h),
      applyOptSetter_fst_other _ offset (fun x1 x2 => nodeOffsetSet x1 ch node x2)
        (SetterCall.offsetSet ch node) c n
        (fun dd v => updateNode_other dd ch node _ c n h),
      applyOptSetter_fst_other _ amplitude (fun x1 x2 => nodeAmplitudeSet x1 ch node x2)
        (SetterCall.amplitudeSet ch node) c n
        (fun dd v => updateNode_other dd ch node _ c n h),
      applyOptSetter_fst_other _ frequency (fun x1 x2 => nodeFrequencySet x1 ch node x2)
        (SetterCall.frequencySet ch node) c n
        (fun dd v => updateNode_other dd ch node _ c n h),
      applyOptSetter_fst_other _ func (fun x1 x2 => nodeFunctionSet x1 ch node x2)
        (SetterCall.functionSet ch node) c n
        (fun dd v => updateNode_other dd ch node _ c n h),
      applyOptSetter_fst_other _ enable (fun x1 x2 => nodeEnableSet x1 ch node x2)
        (SetterCall.enableSet ch node) c n
        (fun dd v => updateNode_other dd ch node _ c n h)]
  · show (applyOptSetter _ phase _ _).2 = _
    rw [applyOptSetter_snd, applyOptSetter_snd, applyOptSetter_snd,
      applyOptSetter_snd, applyOptSetter_snd, applyOptSetter_snd,
      applyOptSetter_snd]
    simp

/-- Witness for C5: enabling only the `enable` flag of channel 0's Carrier
node performs exactly one SDK setter call and leaves channel 1's AM node
untouched. -/
theorem set_node_settings_exact_witness :
    let d0 : AnalogOutInstrument :=
      ⟨fun _ _ => ⟨false, DwfAnalogOutFunction.DC, 0, 0, 0, 0, 0⟩⟩
    let r := set_analog_output_node_settings d0 0 DwfAnalogOutNode.Carrier
      (some true) none none none none none none
    r.1.nodeState 1 DwfAnalogOutNode.AM = d0.nodeState 1 DwfAnalogOutNode.AM ∧
    r.2 = [SetterCall.enableSet 0 DwfAnalogOutNode.Carrier true] := by
  intro d0 r
  have h := set_node_settings_exact d0 0 DwfAnalogOutNode.Carrier
    (some true) none none none none none none
  exact ⟨h.2.1 1 DwfAnalogOutNode.AM (by decide), by simpa using h.2.2.1⟩

/-- Claim C10: `analog_output_signal_simulator` raises `RuntimeError`
whenever `fm_settings` is not `None`; and for carrier settings with
`enable = False` and `am_settings = None` the returned signal equals the
constant carrier offset at every time point (the carrier offset is applied
even when the carrier is disabled). -/
theorem simulator_fm_rejected_and_disabled_carrier_offset :
    (∀ (carrier_settings : AnalogOutNodeSettings)
        (am_settings : Option AnalogOutNodeSettings)
        (fmS : AnalogOutNodeSettings) (t : ℝ),
      analog_output_signal_simulator carrier_settings am_settings (some fmS) t =
        .error "FM modulation not yet supported.") ∧
    (∀ (carrier_settings : AnalogOutNodeSettings) (t : ℝ),
      carrier_settings.enable = false →
      analog_output_signal_simulator carrier_settings none none t =
        .ok carrier_settings.offset) := by
  refine ⟨fun c am fmS t => rfl, fun c t h => ?_⟩
  simp [analog_output_signal_simulator, h, Bind.bind, Except.bind, Pure.pure,
    Except.pure]

/-- Witness for C10 at a disabled DC carrier with offset 5: FM settings
are rejected, and the simulated signal is the constant 5. -/
theorem simulator_fm_rejected_and_disabled_carrier_offset_witness :
    analog_output_signal_simulator
        ⟨false, DwfAnalogOutFunction.DC, 0, 2, 5, 0, 0⟩ none
        (some ⟨false, DwfAnalogOutFunction.DC, 0, 2, 5, 0, 0⟩) 1 =
      .error "FM modulation not yet supported." ∧
    analog_output_signal_simulator
        ⟨false, DwfAnalogOutFunction.DC, 0, 2, 5, 0, 0⟩ none none 1 = .ok 5 := by
  constructor
  · exact simulator_fm_rejected_and_disabled_carrier_offset.1 _ none _ 1
  · exact simulator_fm_rejected_and_disabled_carrier_offset.2
      ⟨false, DwfAnalogOutFunction.DC, 0, 2, 5, 0, 0⟩ 1 rfl

/-- Claim C8: the spinning-globe demo builds a bounded queue of capacity 5
and spawns exactly one frame-producer thread and one input-watcher
thread; the producer enqueues a frame for each loop check that observes
the cancellation flag unset and terminates at the first check that
observes it set (so once the flag is set it enqueues no further frames);
the input-watcher's only effect is to set the flag. -/
theorem spinning_globe_threads_queue_flag :
    spinning_globe_demo_setup.queueCapacity = 5 ∧
    spinning_globe_demo_setup.threads =
      [GlobeThreadTarget.frame_producer, GlobeThreadTarget.wait_for_input] ∧
    (∀ (α : Type) (renderFrame : Nat → α) (flags : List Bool) (frame : Nat),
      frame_producer_frames renderFrame flags frame =
        (List.range' frame (flags.takeWhile (fun b => b = false)).length).map
          renderFrame) ∧
    (∀ (α : Type) (renderFrame : Nat → α) (pre post : List Bool) (frame : Nat),
      frame_producer_frames renderFrame (pre ++ true :: post) frame =
        frame_producer_frames renderFrame (pre ++ [true]) frame) ∧
    (∀ (α : Type) (st : GlobeSharedState α),
      wait_for_input st = { event := true, frameQueue := st.frameQueue }) := by
  refine ⟨rfl, rfl, ?_, ?_, fun α st => rfl⟩
  · intro α renderFrame flags
    induction flags with
    | nil => intro frame; simp [frame_producer_frames]
    | cons b restFlags ih =>
      intro frame
      cases b
      · simp [frame_producer_frames, List.takeWhile, ih, List.range']
      · simp [frame_producer_frames, List.takeWhile]
  · intro α renderFrame pre post
    induction pre with
    | nil => intro frame; simp [frame_producer_frames]
    | cons b pre' ih =>
      intro frame
      cases b <;> simp [frame_producer_frames, ih]

/-- Once a `configure` has been seen, the status-guard scan always
succeeds. -/
theorem statusGuarded_true (l : List SdkEvent) : statusGuarded true l = true := by
  induction l with
  | nil => rfl
  | cons e rest ih => cases e <;> simp [statusGuarded, ih]

/-- The status-guard scan skips any prefix of `setupCall` events. -/
theorem statusGuarded_replicate_setup (b : Bool) (k : Nat) (l : List SdkEvent) :
    statusGuarded b (List.replicate k SdkEvent.setupCall ++ l) = statusGuarded b l := by
  induction k with
  | zero => rfl
  | succ k ih => simpa [List.replicate, statusGuarded] using ih

/-- A successful status-guard scan started without a seen `configure`
places some `configure` before every `status` of the trace. -/
theorem statusGuarded_position (l : List SdkEvent) : ∀ (b : Bool),
    statusGuarded b l = true → ∀ j, l.get? j = some SdkEvent.status →
    b = true ∨ ∃ i, i < j ∧ l.get? i = some SdkEvent.configure := by
  induction l with
  | nil =>
    intro b _ j hj
    simp at hj
  | cons e rest ih =>
    intro b hb j hj
    cases j with
    | zero =>
      simp at hj
      subst hj
      simp [statusGuarded, Bool.and_eq_true] at hb
      exact Or.inl hb.1
    | succ j' =>
      simp only [List.get?_cons_succ] at hj
      cases e with
      | status =>
        simp [statusGuarded, Bool.and_eq_true] at hb
        exact Or.inl hb.1
      | configure =>
        exact Or.inr ⟨0, Nat.succ_pos j', rfl⟩
      | _ =>
        rcases ih b (by simpa [statusGuarded] using hb) j' hj with h | ⟨i, hi, hgi⟩
        · exact Or.inl h
        · exact Or.inr ⟨i + 1, by omega, by simpa using hgi⟩

/-- `closeDevice` never occurs inside one status-loop iteration's SDK
calls. -/
theorem closeDevice_not_mem_stepEvents (st : RecordStep) :
    SdkEvent.closeDevice ∉ stepEvents st := by
  simp only [stepEvents]
  split_ifs <;> simp

/-- `closeDevice` never occurs inside one acquisition's SDK calls. -/
theorem closeDevice_not_mem_acquisitionTrace (a : RecordAcquisition) :
    SdkEvent.closeDevice ∉ acquisitionTrace a := by
  intro hmem
  rcases List.mem_cons.mp hmem with h | hmem1
  · simp at h
  rcases List.mem_append.mp hmem1 with hmem2 | h
  · rcases List.mem_flatten.mp hmem2 with ⟨l, hl, hcl⟩
    rcases List.mem_map.mp hl with ⟨st, _, rfl⟩
    exact closeDevice_not_mem_stepEvents st hcl
  · simp at h

/-- `closeDevice` never occurs before the final context-manager exit in
the trace of the Record-mode script. -/
theorem main_trace_decomposition (trigger_flag : Bool)
    (first : RecordAcquisition) (rest : List RecordAcquisition) :
    ∃ body, main_trace trigger_flag first rest = body ++ [SdkEvent.closeDevice] ∧
      SdkEvent.closeDevice ∉ body := by
  refine ⟨SdkEvent.parseArgs :: SdkEvent.openDevice ::
    (List.replicate 15 SdkEvent.setupCall ++ run_demo_trace trigger_flag first rest),
    by simp [main_trace], ?_⟩
  intro hmem
  simp only [List.mem_cons, List.mem_append, List.mem_replicate,
    run_demo_trace, List.mem_flatten, List.mem_map] at hmem
  rcases hmem with h | h | ⟨_, h⟩ | ⟨_, h⟩ | ⟨l, ⟨a, _, rfl⟩, hl⟩
  · simp at h
  · simp at h
  · simp at h
  · simp at h
  · exact closeDevice_not_mem_acquisitionTrace a hl

/-- Scanning past `parseArgs` leaves the status guard unchanged. -/
theorem statusGuarded_parseArgs (b : Bool) (l : List SdkEvent) :
    statusGuarded b (SdkEvent.parseArgs :: l) = statusGuarded b l := rfl

/-- Scanning past `openDevice` leaves the status guard unchanged. -/
theorem statusGuarded_openDevice (b : Bool) (l : List SdkEvent) :
    statusGuarded b (SdkEvent.openDevice :: l) = statusGuarded b l := rfl

/-- Scanning past `configure` marks the guard as satisfied. -/
theorem statusGuarded_configure (b : Bool) (l : List SdkEvent) :
    statusGuarded b (SdkEvent.configure :: l) = statusGuarded true l := rfl

/-- Claim C7, counterexample: the claimed fixed order does not hold for
every example script — AnalogInSimple.py polls `status()` (here at trace
index 4, right after its `reset()`) and AnalogIO.py polls `status()`
(here at trace index 7), while neither script's run contains a
`configure()` call at any position, so no `configure()` precedes their
first `status()` poll. -/
theorem status_poll_without_configure :
    (analogInSimple_trace 2 2).get? 4 = some SdkEvent.status ∧
    (¬∃ i, i < 4 ∧ (analogInSimple_trace 2 2).get? i = some SdkEvent.configure) ∧
    SdkEvent.configure ∉ analogInSimple_trace 2 2 ∧
    (analogIO_trace [2] 2 1).get? 7 = some SdkEvent.status ∧
    SdkEvent.configure ∉ analogIO_trace [2] 2 1 := by decide

/-- Claim C7, amended: in the Record-mode acquisition script's SDK call
trace (AnalogInRecordMode.py, the script the claim's code sources cite),
the `configure()` call always precedes the first `status()` poll of an
acquisition (every `status` event has an earlier `configure` event), and
the device close at the context-manager exit never precedes any other
SDK interaction of the run — in particular no configuration or status
call; the universal over every example script fails, since
AnalogInSimple.py and AnalogIO.py poll `status()` after only a `reset()`
with no `configure()` call anywhere in their runs. -/
theorem record_mode_script_trace_order (trigger_flag : Bool)
    (first : RecordAcquisition) (rest : List RecordAcquisition) :
    (∀ j, (main_trace trigger_flag first rest).get? j = some SdkEvent.status →
      ∃ i, i < j ∧
        (main_trace trigger_flag first rest).get? i = some SdkEvent.configure) ∧
    (∀ i j e, (main_trace trigger_flag first rest).get? i = some SdkEvent.closeDevice →
      (main_trace trigger_flag first rest).get? j = some e →
      e ≠ SdkEvent.closeDevice → j < i) := by
  constructor
  · intro j hj
    have hguard : statusGuarded false (main_trace trigger_flag first rest) = true := by
      simp only [main_trace, run_demo_trace, statusGuarded_parseArgs,
        statusGuarded_openDevice]
      rw [statusGuarded_replicate_setup, List.append_assoc,
        statusGuarded_replicate_setup]
      simp only [List.map_cons, List.flatten_cons, acquisitionTrace,
        List.cons_append, List.append_assoc]
      rw [statusGuarded_configure]
      exact statusGuarded_true _
    rcases statusGuarded_position _ false hguard j hj with h | h
    · exact absurd h (by simp)
    · exact h
  · intro i j e hi hj he
    obtain ⟨body, hb, hnm⟩ := main_trace_decomposition trigger_flag first rest
    rw [hb] at hi hj
    have hlen : (body ++ [SdkEvent.closeDevice]).length = body.length + 1 := by simp
    have hi' : i = body.length := by
      by_cases hlt : i < body.length
      · exfalso
        rw [List.get?_append hlt] at hi
        exact hnm (List.get?_mem hi)
      · have hge : body.length ≤ i := by omega
        rw [List.get?_append_right hge] at hi
        have : i - body.length = 0 := by
          rcases hk : i - body.length with _ | k
          · rfl
          · rw [hk] at hi; simp at hi
        omega
    have hjlt : j < body.length + 1 := by
      obtain ⟨h, _⟩ := List.get?_eq_some.mp hj
      simpa using h
    have hjne : j ≠ body.length := by
      intro hjeq
      rw [hjeq, List.get?_append_right (Nat.le_refl _)] at hj
      simp at hj
      exact he hj.symm
    omega

/-- Witness for C7 at a concrete run: triggering disabled, one acquisition
whose single status poll returns `Done` with two available samples.  The
first `status` poll (index 27) is preceded by the `configure` call, and
the `status` poll precedes the device close (index 32). -/
theorem record_mode_script_trace_order_witness :
    (main_trace false ⟨[], ⟨2, 0⟩⟩ []).get? 27 = some SdkEvent.status ∧
    (∃ i, i < 27 ∧
      (main_trace false ⟨[], ⟨2, 0⟩⟩ []).get? i = some SdkEvent.configure) ∧
    (main_trace false ⟨[], ⟨2, 0⟩⟩ []).get? 32 = some SdkEvent.closeDevice ∧
    27 < 32 := by
  have h := record_mode_script_trace_order false ⟨[], ⟨2, 0⟩⟩ []
  have h27 : (main_trace false ⟨[], ⟨2, 0⟩⟩ []).get? 27 = some SdkEvent.status := by
    decide
  have h32 : (main_trace false ⟨[], ⟨2, 0⟩⟩ []).get? 32 = some SdkEvent.closeDevice := by
    decide
  exact ⟨h27, h.1 27 h27, h32, h.2 32 27 SdkEvent.status h32 h27 (by decide)⟩

/-- Pairing a flat word list halves its length (rounding down). -/
theorem parseGSHHSPoints_length : ∀ (l : List Int),
    (parseGSHHSPoints l).length = l.length / 2
  | [] => by simp [parseGSHHSPoints]
  | [_] => by simp [parseGSHHSPoints]
  | _ :: _ :: rest => by
    simp [parseGSHHSPoints, parseGSHHSPoints_length rest]
    omega

/-- The `GSHHS_Polygon` constructor raises exactly when the header count
disagrees with the point-array length. -/
theorem mkGSHHS_Polygon_error_iff (poly_header : GSHHS_PolyHeader)
    (poly_points : List GSHHS_Point) :
    (∃ e, mkGSHHS_Polygon poly_header poly_points = .error e) ↔
      poly_header.n ≠ (poly_points.length : Int) := by
  unfold mkGSHHS_Polygon
  split_ifs with hne
  · exact ⟨fun _ => hne, fun _ => ⟨_, rfl⟩⟩
  · constructor
    · rintro ⟨e, he⟩
      simp at he
    · intro hc
      exact absurd hc hne

/-- A successfully constructed `GSHHS_Polygon` comes from a header whose
count matches the point-array length, and stores exactly those points. -/
theorem mkGSHHS_Polygon_ok_n (poly_header : GSHHS_PolyHeader)
    (poly_points : List GSHHS_Point) (p : GSHHS_Polygon)
    (hok : mkGSHHS_Polygon poly_header poly_points = .ok p) :
    poly_header.n = (poly_points.length : Int) ∧ p.points = poly_points := by
  unfold mkGSHHS_Polygon at hok
  split_ifs at hok with hne
  push_neg at hne
  exact ⟨hne, by rw [← Except.ok.inj hok]⟩

/-- Every polygon delivered by the read loop was built by a successful
`GSHHS_Polygon` construction from a header matching its points. -/
theorem read_gshhs_loop_mem (filt : Option (GSHHS_Polygon → Bool)) :
    ∀ (buf : List Int), ∀ (polys : List GSHHS_Polygon),
    read_gshhs_loop filt buf = .ok polys → ∀ p ∈ polys,
    ∃ (poly_header : GSHHS_PolyHeader) (poly_points : List GSHHS_Point),
      mkGSHHS_Polygon poly_header poly_points = .ok p ∧
      poly_header.n = (poly_points.length : Int) ∧ p.points = poly_points
  | [] => by
    intro polys hok p hp
    simp [read_gshhs_loop] at hok
    subst hok
    simp at hp
  | id_ :: n :: flag :: west :: east :: south :: north :: area :: area_full ::
      container :: ancestor :: rest => by
    intro polys hok p hp
    rw [read_gshhs_loop] at hok
    split_ifs at hok with hcond
    · rcases hmk : mkGSHHS_Polygon
          ⟨id_, n, flag, west, east, south, north, area, area_full, container, ancestor⟩
          (parseGSHHSPoints (rest.take (2 * n.toNat))) with e | q
      · rw [hmk] at hok
        simp [Bind.bind, Except.bind] at hok
      · rw [hmk] at hok
        rcases hrec : read_gshhs_loop filt (rest.drop (2 * n.toNat)) with e | polys'
        · rw [hrec] at hok
          simp [Bind.bind, Except.bind] at hok
        · rw [hrec] at hok
          simp only [Bind.bind, Except.bind] at hok
          split_ifs at hok with hfl
          · simp only [Pure.pure, Except.pure, Except.ok.injEq] at hok
            subst hok
            rcases List.mem_cons.mp hp with rfl | hp'
            · exact ⟨_, _, hmk, (mkGSHHS_Polygon_ok_n _ _ _ hmk).1,
                (mkGSHHS_Polygon_ok_n _ _ _ hmk).2⟩
            · exact read_gshhs_loop_mem filt (rest.drop (2 * n.toNat)) polys' hrec p hp'
          · simp only [Pure.pure, Except.pure, Except.ok.injEq] at hok
            subst hok
            exact read_gshhs_loop_mem filt (rest.drop (2 * n.toNat)) polys' hrec p hp
  | [a] => by intro polys hok p hp; simp [read_gshhs_loop] at hok
  | [a, b] => by intro polys hok p hp; simp [read_gshhs_loop] at hok
  | [a, b, c] => by intro polys hok p hp; simp [read_gshhs_loop] at hok
  | [a, b, c, d] => by intro polys hok p hp; simp [read_gshhs_loop] at hok
  | [a, b, c, d, e] => by intro polys hok p hp; simp [read_gshhs_loop] at hok
  | [a, b, c, d, e, f] => by intro polys hok p hp; simp [read_gshhs_loop] at hok
  | [a, b, c, d, e, f, g] => by intro polys hok p hp; simp [read_gshhs_loop] at hok
  | [a, b, c, d, e, f, g, h] => by
    intro polys hok p hp; simp [read_gshhs_loop] at hok
  | [a, b, c, d, e, f, g, h, i] => by
    intro polys hok p hp; simp [read_gshhs_loop] at hok
  | [a, b, c, d, e, f, g, h, i, j] => by
    intro polys hok p hp; simp [read_gshhs_loop] at hok
termination_by buf => buf.length
decreasing_by
  all_goals simp only [List.length_drop, List.length_cons]
  all_goals omega

/-- Reading with a filter function returns exactly the polygons of the
plain read that the filter accepts, in file order (and fails exactly when
the plain read fails). -/
theorem read_gshhs_loop_filter (f : GSHHS_Polygon → Bool) : ∀ (buf : List Int),
    read_gshhs_loop (some f) buf = (read_gshhs_loop none buf).map (List.filter f)
  | [] => by simp [read_gshhs_loop, Except.map]
  | id_ :: n :: flag :: west :: east :: south :: north :: area :: area_full ::
      container :: ancestor :: rest => by
    simp only [read_gshhs_loop]
    split_ifs with hcond
    · rcases hmk : mkGSHHS_Polygon
          ⟨id_, n, flag, west, east, south, north, area, area_full, container, ancestor⟩
          (parseGSHHSPoints (rest.take (2 * n.toNat))) with e | q
      · simp [hmk, Bind.bind, Except.bind, Except.map]
      · have ih := read_gshhs_loop_filter f (rest.drop (2 * n.toNat))
        rcases hrec : read_gshhs_loop none (rest.drop (2 * n.toNat)) with e | polys
        · rw [hrec] at ih
          simp [hmk, ih, Bind.bind, Except.bind, Except.map]
        · rw [hrec] at ih
          simp only [hmk, ih, Bind.bind, Except.bind, Except.map]
          by_cases hf : f q
          · simp [hf, Pure.pure, Except.pure, List.filter_cons]
          · simp [hf, Pure.pure, Except.pure, List.filter_cons]
    · rfl
  | [a] => by simp [read_gshhs_loop, Except.map]
  | [a, b] => by simp [read_gshhs_loop, Except.map]
  | [a, b, c] => by simp [read_gshhs_loop, Except.map]
  | [a, b, c, d] => by simp [read_gshhs_loop, Except.map]
  | [a, b, c, d, e] => by simp [read_gshhs_loop, Except.map]
  | [a, b, c, d, e, f'] => by simp [read_gshhs_loop, Except.map]
  | [a, b, c, d, e, f', g] => by simp [read_gshhs_loop, Except.map]
  | [a, b, c, d, e, f', g, h] => by simp [read_gshhs_loop, Except.map]
  | [a, b, c, d, e, f', g, h, i] => by simp [read_gshhs_loop, Except.map]
  | [a, b, c, d, e, f', g, h, i, j] => by simp [read_gshhs_loop, Except.map]
termination_by buf => buf.length
decreasing_by
  all_goals simp only [List.length_drop, List.length_cons]
  all_goals omega

/-- Claim C9: constructing a `GSHHS_Polygon` raises `RuntimeError` if and
only if the header's point count `n` differs from the length of the
supplied point array; every polygon returned by the read loop was built
by a successful construction from a header whose `n` equals the length of
its stored points; and a polygon is included in the result exactly when
the filter function is `None` or returns true for it, in file order
(filtered reading returns the accepted sublist of the plain read, in
order). -/
theorem gshhs_polygon_check_and_read :
    (∀ (poly_header : GSHHS_PolyHeader) (poly_points : List GSHHS_Point),
      (∃ e, mkGSHHS_Polygon poly_header poly_points = .error e) ↔
        poly_header.n ≠ (poly_points.length : Int)) ∧
    (∀ (buf : List Int) (filt : Option (GSHHS_Polygon → Bool))
        (polys : List GSHHS_Polygon),
      read_gshhs_loop filt buf = .ok polys → ∀ p ∈ polys,
      ∃ (poly_header : GSHHS_PolyHeader) (poly_points : List GSHHS_Point),
        mkGSHHS_Polygon poly_header poly_points = .ok p ∧
        poly_header.n = (poly_points.length : Int) ∧ p.points = poly_points) ∧
    (∀ (buf : List Int) (f : GSHHS_Polygon → Bool),
      read_gshhs_loop (some f) buf =
        (read_gshhs_loop none buf).map (List.filter f)) :=
  ⟨mkGSHHS_Polygon_error_iff,
   fun buf filt polys hok p hp => read_gshhs_loop_mem filt buf polys hok p hp,
   fun buf f => read_gshhs_loop_filter f buf⟩

/-- Witness for C9 at a concrete buffer holding one polygon with one
point: a mismatched constructor call errors, the plain read returns the
polygon, that polygon comes from a matching header, and an
all-rejecting filter returns the empty list. -/
theorem gshhs_polygon_check_and_read_witness :
    (∃ e, mkGSHHS_Polygon ⟨1, 2, 0, 0, 0, 0, 0, 0, 0, 0, 0⟩ [] = Except.error e) ∧
    read_gshhs_loop none [10, 1, 5, 0, 0, 0, 0, 0, 0, 0, 0, 100, 200] =
      Except.ok [⟨10, 5, 0, 0, 0, 0, 0, 0, 0, 0, [⟨100, 200⟩]⟩] ∧
    (∃ (poly_header : GSHHS_PolyHeader) (poly_points : List GSHHS_Point),
      mkGSHHS_Polygon poly_header poly_points =
        Except.ok (⟨10, 5, 0, 0, 0, 0, 0, 0, 0, 0, [⟨100, 200⟩]⟩ : GSHHS_Polygon) ∧
      poly_header.n = (poly_points.length : Int) ∧
      (⟨10, 5, 0, 0, 0, 0, 0, 0, 0, 0, [⟨100, 200⟩]⟩ : GSHHS_Polygon).points =
        poly_points) ∧
    read_gshhs_loop (some (fun _ => false))
        [10, 1, 5, 0, 0, 0, 0, 0, 0, 0, 0, 100, 200] = Except.ok [] := by
  have hread : read_gshhs_loop none [10, 1, 5, 0, 0, 0, 0, 0, 0, 0, 0, 100, 200] =
      Except.ok [⟨10, 5, 0, 0, 0, 0, 0, 0, 0, 0, [⟨100, 200⟩]⟩] := by
    simp [read_gshhs_loop, mkGSHHS_Polygon, parseGSHHSPoints, Bind.bind,
      Except.bind, Pure.pure, Except.pure]
  refine ⟨(gshhs_polygon_check_and_read.1 ⟨1, 2, 0, 0, 0, 0, 0, 0, 0, 0, 0⟩ []).mpr
      (by norm_num), hread,
    gshhs_polygon_check_and_read.2.1 _ none _ hread _ (by simp), ?_⟩
  have hfil := gshhs_polygon_check_and_read.2.2
    [10, 1, 5, 0, 0, 0, 0, 0, 0, 0, 0, 100, 200] (fun _ => false)
  rw [hread] at hfil
  simpa using hfil

end PcbTester
